import Mathlib

/-!
Shallow embedding of the USB1608G_2AO_V2 threshold-monitoring IOC driver
(files ErrorHandler.cpp, ThresholdLogicController.cpp, ThresholdCompare.cpp)
and proofs about its validation, fault classification, and hysteresis logic.

Doubles are modelled as follows: a finite double is a rational number; a
value that is NaN or infinite is `none` in `Option ℚ` wherever the code
guards with `isnan(value) || isinf(value)` before any comparison.  Logging
and EPICS parameter-database mirroring are pure side channels with no data
flow back into the modelled state, except for the global error-statistics
counters, which are modelled explicitly by state passing.
-/

namespace USB1608G

/-- ErrorHandler::ErrorLevel (ErrorHandler.h lines 16-21). -/
inductive ErrorLevel
| INFO
| WARNING
| ERROR
| FATAL
deriving DecidableEq, Repr

/-- The four process-wide error-statistics counters
(ErrorHandler.cpp lines 27-30). -/
structure ErrorStats where
  infoCount : Nat
  warningCount : Nat
  errorCount : Nat
  fatalCount : Nat
deriving DecidableEq, Repr

/-- Counter update performed by ErrorHandler::logError
(ErrorHandler.cpp lines 54-62); the console / asyn trace output of
internalLog is a pure side channel and is not modelled. -/
def logError (level : ErrorLevel) (s : ErrorStats) : ErrorStats :=
  match level with
  | .INFO => { s with infoCount := s.infoCount + 1 }
  | .WARNING => { s with warningCount := s.warningCount + 1 }
  | .ERROR => { s with errorCount := s.errorCount + 1 }
  | .FATAL => { s with fatalCount := s.fatalCount + 1 }

/-- ErrorHandler::handleRuntimeError (ErrorHandler.cpp lines 218-265),
returning the recoverable verdict together with the updated statistics.
Every branch calls logError exactly once at the branch severity; the
unrecognized-kind branch keeps the defaults level = ERROR,
recoverable = true. -/
def handleRuntimeError (errorType : String) (s : ErrorStats) : Bool × ErrorStats :=
  if errorType = "MEMORY_ALLOCATION" then (false, logError .FATAL s)
  else if errorType = "THREAD_CREATION" then (true, logError .ERROR s)
  else if errorType = "PARAMETER_VALIDATION" then (true, logError .WARNING s)
  else if errorType = "DEVICE_COMMUNICATION" then (true, logError .ERROR s)
  else if errorType = "TIMEOUT" then (true, logError .WARNING s)
  else (true, logError .ERROR s)

/-- ErrorHandler::validateParameter (ErrorHandler.cpp lines 321-347):
NaN or infinite (`none`) always fails, then a range check. -/
def validateParameter (value : Option ℚ) (minValue maxValue : ℚ) : Bool :=
  match value with
  | none => false
  | some q => if q < minValue ∨ q > maxValue then false else true

/-- ErrorHandler::validateIntParameter (ErrorHandler.cpp lines 350-368). -/
def validateIntParameter (value minValue maxValue : Int) : Bool :=
  if value < minValue ∨ value > maxValue then false else true

/-- ErrorHandler::validateStringParameter (ErrorHandler.cpp lines 371-405):
reject empty (unless allowed) and reject length >= maxLength; the NULL
cases do not arise in the model. -/
def validateStringParameter (value : String) (maxLength : Nat) (allowEmpty : Bool) : Bool :=
  if ¬ allowEmpty ∧ value.length = 0 then false
  else if value.length ≥ maxLength then false
  else true

/-- ErrorHandler::ThresholdConfig (ErrorHandler.h lines 66-74); the two
64-byte char arrays become strings whose length the validator bounds. -/
structure ThresholdConfig where
  portName : String
  devicePort : String
  deviceAddr : Int
  updateRate : Option ℚ
  priority : Int
  thresholdValue : Option ℚ
  hysteresis : Option ℚ
deriving DecidableEq, Repr

/-- ErrorHandler::ValidationResult (ErrorHandler.h lines 58-63). -/
structure ValidationResult where
  isValid : Bool
  errorLevel : ErrorLevel
  errorMessage : String
  suggestion : String
deriving DecidableEq, Repr

def msgPortName : String := "포트 이름이 유효하지 않습니다"
def suggPortName : String := "1-63자의 영숫자와 언더스코어만 사용하세요"
def msgDevicePort : String := "장치 포트 이름이 유효하지 않습니다"
def suggDevicePort : String := "유효한 asyn 포트 이름을 지정하세요"
def msgDeviceAddr : String := "장치 주소가 유효 범위를 벗어났습니다"
def suggDeviceAddr : String := "0-255 범위의 값을 사용하세요"
def msgUpdateRate : String := "업데이트 주기가 유효 범위를 벗어났습니다"
def suggUpdateRate : String := "0.1-1000.0 Hz 범위의 값을 사용하세요"
def msgPriority : String := "스레드 우선순위가 권장 범위를 벗어났습니다"
def suggPriority : String := "0-99 범위의 값을 사용하세요 (기본값: 50)"
def msgThreshold : String := "임계값이 유효 범위를 벗어났습니다"
def suggThreshold : String := "-10.0V ~ +10.0V 범위의 값을 사용하세요"
def msgHysteresis : String := "히스테리시스가 유효 범위를 벗어났습니다"
def suggHysteresis : String := "0.0V ~ 5.0V 범위의 값을 사용하세요"
def msgRelation : String := "히스테리시스가 임계값보다 큽니다"
def suggRelation : String := "히스테리시스를 임계값 절댓값보다 작게 설정하세요"
def msgValid : String := "구성이 유효합니다"

/-- The comparison config.hysteresis > fabs(config.thresholdValue) of
ErrorHandler.cpp line 199.  validateConfiguration only reaches it after
both values passed validateParameter, so both are finite there; the
`none` fallthrough is unreachable in that context. -/
def hystGtAbsThreshold (hysteresis thresholdValue : Option ℚ) : Bool :=
  match hysteresis, thresholdValue with
  | some h, some t => h > |t|
  | _, _ => false

/-- ErrorHandler::validateConfiguration (ErrorHandler.cpp lines 120-215):
fixed field order with early return on the ERROR-level failures; the
priority failure sets an invalid WARNING result but keeps checking; the
threshold / hysteresis relationship violation overwrites the result and
then restores isValid = true. -/
def validateConfiguration (config : ThresholdConfig) : ValidationResult :=
  if ¬ validateStringParameter config.portName 64 false then
    ⟨false, .ERROR, msgPortName, suggPortName⟩
  else if ¬ validateStringParameter config.devicePort 64 false then
    ⟨false, .ERROR, msgDevicePort, suggDevicePort⟩
  else if ¬ validateIntParameter config.deviceAddr 0 255 then
    ⟨false, .ERROR, msgDeviceAddr, suggDeviceAddr⟩
  else if ¬ validateParameter config.updateRate 0.1 1000 then
    ⟨false, .ERROR, msgUpdateRate, suggUpdateRate⟩
  else
    let result : ValidationResult :=
      if ¬ validateIntParameter config.priority 0 99 then
        ⟨false, .WARNING, msgPriority, suggPriority⟩
      else
        ⟨true, .INFO, "", ""⟩
    if ¬ validateParameter config.thresholdValue (-10) 10 then
      ⟨false, .ERROR, msgThreshold, suggThreshold⟩
    else if ¬ validateParameter config.hysteresis 0 5 then
      ⟨false, .ERROR, msgHysteresis, suggHysteresis⟩
    else
      let result :=
        if hystGtAbsThreshold config.hysteresis config.thresholdValue then
          ⟨true, .WARNING, msgRelation, suggRelation⟩
        else result
      if result.isValid = true ∧ result.errorLevel = .INFO then
        { result with errorMessage := msgValid, suggestion := "" }
      else result

/-- Rounding of the double input D by std::lrint under the default
round-to-nearest-ties-to-even mode (ThresholdCompare.cpp line 27). -/
def lrintQ (q : ℚ) : Int :=
  let f := ⌊q⌋
  let r := q - f
  if r < 1/2 then f
  else if r > 1/2 then f + 1
  else if f % 2 = 0 then f else f + 1

/-- thresholdCompare (ThresholdCompare.cpp lines 16-44), the stateless
aSub comparison on the scalar inputs A (sample), B (threshold),
C (hysteresis), D (previous output): out = 1 if A >= B + C, else
out = 0 if A <= B - C, else out = lrint(D). -/
def thresholdCompare (A B C D : ℚ) : Int :=
  let prev := lrintQ D
  if A ≥ B + C then 1
  else if A ≤ B - C then 0
  else prev

/-- The stateful hysteresis decision inline in
ThresholdLogicController::processThresholdLogic
(ThresholdLogicController.cpp lines 552-572): newOutputState starts as
the current output; a LOW output rises when currentValue > threshold,
a HIGH output falls when currentValue < threshold - hysteresis. -/
def nextOutputState (outputState : Bool) (currentValue thresholdValue hysteresis : ℚ) : Bool :=
  if ¬ outputState then
    if currentValue > thresholdValue then true else outputState
  else
    if currentValue < thresholdValue - hysteresis then false else outputState

/-- asynStatus restricted to the two values this driver produces. -/
inductive AsynStatus
| asynSuccess
| asynError
deriving DecidableEq, Repr

/-- The modelled mutable members of ThresholdLogicController
(ThresholdLogicController.h lines 73-92).  The stored doubles are plain
rationals: every accepted write is finite (validateParameter rejects NaN
and infinities) and the device read clamps into [-10, 10], matching
their constructor initialisation by finite literals. -/
structure CtrlState where
  thresholdValue : ℚ
  currentValue : ℚ
  outputState : Bool
  enabled : Bool
  hysteresis : ℚ
  updateRate : ℚ
  alarmStatus : Int
  devicePortName : String
  deviceAddr : Int
  lastOutputState : Bool
  threadRunning : Bool
  threadExit : Bool
  monitorThreadPresent : Bool
deriving DecidableEq, Repr

/-- Constructor initialisation of the modelled members
(ThresholdLogicController.cpp lines 72-101). -/
def initialState (devicePort : String) (deviceAddr : Int) : CtrlState :=
  { thresholdValue := 0
    currentValue := 0
    outputState := false
    enabled := false
    hysteresis := 0.1
    updateRate := 10
    alarmStatus := 0
    devicePortName := devicePort
    deviceAddr := deviceAddr
    lastOutputState := false
    threadRunning := false
    threadExit := false
    monitorThreadPresent := false }

/-- The Float64 parameters handled by
ThresholdLogicController::writeFloat64; the fallthrough to the base
class for unknown indices is outside the modelled parameter set. -/
inductive Float64Param
| thresholdValue
| hysteresisParam
| updateRate
| currentValue
deriving DecidableEq, Repr

/-- ThresholdLogicController::writeFloat64
(ThresholdLogicController.cpp lines 149-246).  The argument is `none`
for a NaN or infinite double.  The relationship warnings are log-only;
setDoubleParam / callParamCallbacks mirror to the parameter database and
are not modelled.  In the accept branches validateParameter guarantees
the value is finite, so Option.getD never takes its default. -/
def writeFloat64 (p : Float64Param) (value : Option ℚ) (st : CtrlState) :
    AsynStatus × CtrlState :=
  match p with
  | .thresholdValue =>
    if ¬ validateParameter value (-10) 10 then (.asynError, st)
    else (.asynSuccess, { st with thresholdValue := value.getD st.thresholdValue })
  | .hysteresisParam =>
    if ¬ validateParameter value 0 5 then (.asynError, st)
    else (.asynSuccess, { st with hysteresis := value.getD st.hysteresis })
  | .updateRate =>
    if ¬ validateParameter value 0.1 1000 then (.asynError, st)
    else (.asynSuccess, { st with updateRate := value.getD st.updateRate })
  | .currentValue => (.asynError, st)

/-- ThresholdLogicController::validateParameters
(ThresholdLogicController.cpp lines 1072-1183): ten sequential checks;
checks 3, 7 and 9 are warnings only, check 8 resets an out-of-range
alarm status to 0 as a side effect without touching isValid. -/
def validateParameters (st : CtrlState) : Bool × CtrlState :=
  let isValid := true
  let isValid := if st.thresholdValue < -10 ∨ st.thresholdValue > 10 then false else isValid
  let isValid := if st.hysteresis < 0 ∨ st.hysteresis > 5 then false else isValid
  let isValid := if st.updateRate < 0.1 ∨ st.updateRate > 1000 then false else isValid
  let isValid :=
    if st.devicePortName.length = 0 then false
    else if st.devicePortName.length ≥ 64 then false
    else isValid
  let isValid := if st.deviceAddr < 0 ∨ st.deviceAddr > 255 then false else isValid
  let st := if st.alarmStatus < 0 ∨ st.alarmStatus > 3 then { st with alarmStatus := 0 } else st
  let isValid := if st.enabled = true ∧ st.monitorThreadPresent = false then false else isValid
  (isValid, st)

/-- ThresholdLogicController::startMonitoring
(ThresholdLogicController.cpp lines 633-694).  spawnOk stands for the
external outcome of constructing and starting the epicsThread; on
failure the thread pointer is cleared and threadRunning_ stays false. -/
def startMonitoring (spawnOk : Bool) (st : CtrlState) : CtrlState :=
  if st.threadRunning then st
  else
    let st := { st with threadExit := false }
    let st :=
      if st.updateRate < 0.1 ∨ st.updateRate > 1000 then { st with updateRate := 10 }
      else st
    if spawnOk then { st with monitorThreadPresent := true, threadRunning := true }
    else { st with monitorThreadPresent := false, threadRunning := false }

/-- ThresholdLogicController::stopMonitoring
(ThresholdLogicController.cpp lines 697-755): after signalling and
waiting, the thread object is deleted and both flags are cleared. -/
def stopMonitoring (st : CtrlState) : CtrlState :=
  if ¬ st.threadRunning then st
  else { st with monitorThreadPresent := false, threadRunning := false, threadExit := false }

/-- The Int32 parameters handled by
ThresholdLogicController::writeInt32; the fallthrough to the base class
for unknown indices is outside the modelled parameter set. -/
inductive Int32Param
| enableParam
| outputState
| alarmStatusParam
| deviceAddr
deriving DecidableEq, Repr

/-- ThresholdLogicController::writeInt32
(ThresholdLogicController.cpp lines 317-429).  An Enable value other
than 0 or 1 is coerced to 1 when nonzero before any other handling;
enabling validates the parameters (whose alarm-status reset persists
even when the enable is rejected) and requires a nonempty device port;
OutputState and AlarmStatus are read-only. -/
def writeInt32 (spawnOk : Bool) (p : Int32Param) (value : Int) (st : CtrlState) :
    AsynStatus × CtrlState :=
  match p with
  | .enableParam =>
    let value := if value ≠ 0 ∧ value ≠ 1 then (if value ≠ 0 then 1 else 0) else value
    let newEnabled : Bool := value != 0
    if newEnabled ≠ st.enabled then
      if newEnabled then
        let vr := validateParameters st
        if ¬ vr.1 then (.asynError, vr.2)
        else if vr.2.devicePortName.length = 0 then (.asynError, vr.2)
        else (.asynSuccess, startMonitoring spawnOk { vr.2 with enabled := newEnabled })
      else (.asynSuccess, stopMonitoring { st with enabled := newEnabled })
    else (.asynSuccess, st)
  | .outputState => (.asynError, st)
  | .alarmStatusParam => (.asynError, st)
  | .deviceAddr =>
    if value < 0 ∨ value > 255 then (.asynError, st)
    else if st.enabled then (.asynError, st)
    else (.asynSuccess, { st with deviceAddr := value })

/-- Alarm channels raised through ErrorHandler::setAlarmStatus along the
modelled paths (ErrorHandler.h lines 32-55, values 9 and 2). -/
inductive AlarmChannel
| COMM_ALARM
| WRITE_ALARM
deriving DecidableEq, Repr

/-- Alarm severities raised through ErrorHandler::setAlarmStatus along
the modelled paths (ErrorHandler.h lines 24-29, value 2). -/
inductive AlarmSev
| MAJOR_ALARM
deriving DecidableEq, Repr

/-- The clamping applied by readCurrentValueFromDevice
(ThresholdLogicController.cpp lines 915-920):
fmax(-10.0, fmin(10.0, v)) when out of range. -/
def clampValue (q : ℚ) : ℚ :=
  if q < -10 ∨ q > 10 then max (-10) (min 10 q) else q

/-- ThresholdLogicController::readCurrentValueFromDevice
(ThresholdLogicController.cpp lines 886-939).  readOk stands for the
external connect outcome and rawValue for the value the device
delivers; on failure the function returns before touching
currentValue_. -/
def readCurrentValueFromDevice (readOk : Bool) (rawValue : ℚ) (st : CtrlState) :
    AsynStatus × CtrlState :=
  if ¬ readOk then (.asynError, st)
  else (.asynSuccess, { st with currentValue := clampValue rawValue })

/-- ThresholdLogicController::processThresholdLogic
(ThresholdLogicController.cpp lines 530-630), with the device
interactions as explicit inputs (readOk / rawValue for the read,
writeOk for writeOutputStateToDevice) and the
ErrorHandler::setAlarmStatus calls collected as an event list: a failed
read raises COMM/MAJOR twice (once inside handleCommunicationError,
once directly); a failed write raises COMM/MAJOR inside
handleCommunicationError and then WRITE/MAJOR directly.  On an output
change the state variable is written before the device write is
attempted and is not rolled back on failure. -/
def processThresholdLogic (readOk : Bool) (rawValue : ℚ) (writeOk : Bool)
    (st : CtrlState) : CtrlState × List (AlarmChannel × AlarmSev) :=
  if ¬ st.enabled then (st, [])
  else
    let rd := readCurrentValueFromDevice readOk rawValue st
    match rd.1 with
    | .asynError =>
      ({ rd.2 with alarmStatus := 2 },
       [(.COMM_ALARM, .MAJOR_ALARM), (.COMM_ALARM, .MAJOR_ALARM)])
    | .asynSuccess =>
      let st1 := rd.2
      let newOutputState :=
        nextOutputState st1.outputState st1.currentValue st1.thresholdValue st1.hysteresis
      if newOutputState ≠ st1.outputState then
        let st2 := { st1 with lastOutputState := st1.outputState, outputState := newOutputState }
        if ¬ writeOk then
          ({ st2 with alarmStatus := 2 },
           [(.COMM_ALARM, .MAJOR_ALARM), (.WRITE_ALARM, .MAJOR_ALARM)])
        else
          ({ st2 with alarmStatus := 0 }, [])
      else
        if st1.alarmStatus = 0 then (st1, [])
        else ({ st1 with alarmStatus := 0 }, [])

/-! Helper lemmas and concrete inputs. -/

/-- When the output is LOW, the decision is exactly the strict
threshold comparison. -/
theorem nextOutputState_low (s th hy : ℚ) :
    nextOutputState false s th hy = decide (s > th) := by
  simp only [nextOutputState]
  split_ifs <;> simp_all

/-- When the output is HIGH, the decision is exactly the strict
lower-threshold comparison. -/
theorem nextOutputState_high (s th hy : ℚ) :
    nextOutputState true s th hy = !decide (s < th - hy) := by
  simp only [nextOutputState]
  split_ifs with h h2 <;> simp_all

/-- validateParameters only ever touches alarmStatus; every other
modelled field is returned unchanged. -/
theorem validateParameters_fields (st : CtrlState) :
    (validateParameters st).2.enabled = st.enabled
    ∧ (validateParameters st).2.threadRunning = st.threadRunning
    ∧ (validateParameters st).2.devicePortName = st.devicePortName := by
  simp only [validateParameters]
  split_ifs <;> simp

/-- An empty device port always fails validateParameters (check 5). -/
theorem validateParameters_empty_port (st : CtrlState) (h : st.devicePortName = "") :
    (validateParameters st).1 = false := by
  simp [validateParameters, h]

/-- A nominal configuration with every field inside its declared
range. -/
def cfgNominal : ThresholdConfig :=
  { portName := "port1"
    devicePort := "dev1"
    deviceAddr := 0
    updateRate := some 10
    priority := 50
    thresholdValue := some 2
    hysteresis := some (1/2) }

/-- cfgNominal with only the thread priority out of [0, 99]. -/
def cfgPriorityOut : ThresholdConfig := { cfgNominal with priority := 150 }

/-- cfgNominal with punctuation characters in both names. -/
def cfgPunct : ThresholdConfig :=
  { cfgNominal with portName := "my-port!", devicePort := "dev port" }

/-- A 70-character port name, longer than the 63-character limit. -/
def cfgLongPort : ThresholdConfig :=
  { cfgNominal with portName := String.mk (List.replicate 70 'a') }

/-- Empty port name and every later field out of its range. -/
def cfgEmptyPort : ThresholdConfig :=
  { portName := ""
    devicePort := "ok"
    deviceAddr := 999
    updateRate := none
    priority := -5
    thresholdValue := some 100
    hysteresis := some 100 }

/-- An enabled controller poised to observe a rising edge. -/
def stEnabled : CtrlState :=
  { initialState "dev" 0 with enabled := true, thresholdValue := 2, hysteresis := 1/2 }

/-! Claim theorems. -/

/-- Claim C1: the stateful hysteresis decision of the monitor cycle
rises from false exactly when the sample is strictly greater than the
bare threshold, falls from true exactly when the sample is strictly
less than threshold minus hysteresis, and leaves any sample strictly
inside the dead-band unchanged. -/
theorem claim1_hysteresis_decision (prevOut : Bool) (sample threshold hysteresis : ℚ) :
    (prevOut = false →
      (nextOutputState prevOut sample threshold hysteresis = true ↔ sample > threshold))
    ∧ (prevOut = true →
      (nextOutputState prevOut sample threshold hysteresis = false ↔
        sample < threshold - hysteresis))
    ∧ (threshold - hysteresis < sample → sample < threshold →
      nextOutputState prevOut sample threshold hysteresis = prevOut) := by
  cases prevOut with
  | false =>
    refine ⟨fun _ => ?_, fun h => by simp at h, fun h1 h2 => ?_⟩
    · simp [nextOutputState_low]
    · rw [nextOutputState_low]
      simp only [decide_eq_false_iff_not, gt_iff_lt, not_lt]
      exact le_of_lt h2
  | true =>
    refine ⟨fun h => by simp at h, fun _ => ?_, fun h1 h2 => ?_⟩
    · rw [nextOutputState_high]
      simp
    · rw [nextOutputState_high]
      simp only [Bool.not_eq_true']
      simp only [decide_eq_false_iff_not, not_lt]
      exact le_of_lt h1

/-- Claim C1 witness: a sample strictly inside the dead-band
(1/2 < 3/4 < 1 with threshold 1 and hysteresis 1/2) leaves a HIGH
output HIGH. -/
theorem claim1_witness : nextOutputState true (3/4) 1 (1/2) = true :=
  (claim1_hysteresis_decision true (3/4) 1 (1/2)).2.2 (by norm_num) (by norm_num)

/-- Claim C2 counterexample: with hysteresis = 0 the symmetric falling
identity fails; thresholdCompare(threshold - hysteresis, threshold,
hysteresis, 1) yields 1, not 0, at threshold = 0, hysteresis = 0. -/
theorem claim2_counterexample :
    thresholdCompare (0 - 0) 0 0 1 = 1 ∧ thresholdCompare (0 - 0) 0 0 1 ≠ 0 := by
  constructor <;> norm_num [thresholdCompare]

/-- Claim C2 amended: the stateless compare form yields 1 on
sample ≥ threshold + hysteresis, 0 on sample ≤ threshold - hysteresis
otherwise, and the rounded previous output inside the open band; the
two symmetric identities hold for every threshold and every strictly
positive hysteresis. -/
theorem claim2_amended (A B C D : ℚ) :
    (A ≥ B + C → thresholdCompare A B C D = 1)
    ∧ (A < B + C → A ≤ B - C → thresholdCompare A B C D = 0)
    ∧ (B - C < A → A < B + C → thresholdCompare A B C D = lrintQ D)
    ∧ (0 < C → thresholdCompare (B + C) B C 0 = 1 ∧ thresholdCompare (B - C) B C 1 = 0) := by
  refine ⟨fun h => ?_, fun h1 h2 => ?_, fun h1 h2 => ?_, fun hc => ⟨?_, ?_⟩⟩
  · simp [thresholdCompare, h]
  · simp [thresholdCompare, h2, not_le.mpr h1]
  · simp [thresholdCompare, not_le.mpr h1, not_le.mpr h2]
  · simp [thresholdCompare]
  · have h1 : ¬ (B - C ≥ B + C) := by linarith
    simp only [thresholdCompare, ge_iff_le]
    rw [if_neg (by linarith), if_pos le_rfl]

/-- Claim C2 witness: at threshold 2, hysteresis 1 the two symmetric
identities hold. -/
theorem claim2_witness :
    thresholdCompare (2 + 1) 2 1 0 = 1 ∧ thresholdCompare (2 - 1) 2 1 1 = 0 :=
  (claim2_amended 0 2 1 0).2.2.2 (by norm_num)

/-- Claim C3 counterexample: in cfgPriorityOut only the thread priority
(150) is out of its declared range, every other field is in range, yet
validateConfiguration reports the configuration as invalid. -/
theorem claim3_counterexample :
    (validateStringParameter cfgPriorityOut.portName 64 false = true
      ∧ validateStringParameter cfgPriorityOut.devicePort 64 false = true
      ∧ validateIntParameter cfgPriorityOut.deviceAddr 0 255 = true
      ∧ validateParameter cfgPriorityOut.updateRate 0.1 1000 = true
      ∧ validateParameter cfgPriorityOut.thresholdValue (-10) 10 = true
      ∧ validateParameter cfgPriorityOut.hysteresis 0 5 = true
      ∧ validateIntParameter cfgPriorityOut.priority 0 99 = false)
    ∧ (validateConfiguration cfgPriorityOut).isValid = false := by
  refine ⟨⟨by decide, by decide, by decide, ?_, ?_, ?_, by decide⟩, ?_⟩
  · norm_num [validateParameter, cfgPriorityOut, cfgNominal]
  · norm_num [validateParameter, cfgPriorityOut, cfgNominal]
  · norm_num [validateParameter, cfgPriorityOut, cfgNominal]
  · norm_num [validateConfiguration, validateStringParameter, validateIntParameter,
      validateParameter, hystGtAbsThreshold, cfgPriorityOut, cfgNominal]
    decide

/-- Claim C3 amended: after an out-of-range threadPriority,
validateConfiguration does continue evaluating the remaining fields (a
later invalid threshold still produces its own ERROR result), but the
WARNING-level priority failure leaves the result marked invalid: when
every remaining check passes and hysteresis ≤ |threshold| the result is
invalid with WARNING severity (not valid as claimed); only when
hysteresis > |threshold| does the relation branch overwrite the result
and restore it to valid with WARNING severity and the relation
message. -/
theorem claim3_amended (cfg : ThresholdConfig)
    (h1 : validateStringParameter cfg.portName 64 false = true)
    (h2 : validateStringParameter cfg.devicePort 64 false = true)
    (h3 : validateIntParameter cfg.deviceAddr 0 255 = true)
    (h4 : validateParameter cfg.updateRate 0.1 1000 = true)
    (h5 : validateIntParameter cfg.priority 0 99 = false) :
    (validateParameter cfg.thresholdValue (-10) 10 = true →
      validateParameter cfg.hysteresis 0 5 = true →
      hystGtAbsThreshold cfg.hysteresis cfg.thresholdValue = false →
      validateConfiguration cfg = ⟨false, .WARNING, msgPriority, suggPriority⟩)
    ∧ (validateParameter cfg.thresholdValue (-10) 10 = true →
      validateParameter cfg.hysteresis 0 5 = true →
      hystGtAbsThreshold cfg.hysteresis cfg.thresholdValue = true →
      validateConfiguration cfg = ⟨true, .WARNING, msgRelation, suggRelation⟩)
    ∧ (validateParameter cfg.thresholdValue (-10) 10 = false →
      validateConfiguration cfg = ⟨false, .ERROR, msgThreshold, suggThreshold⟩) := by
  refine ⟨?_, ?_, ?_⟩
  · intro h6 h7 h8
    simp [validateConfiguration, h1, h2, h3, h4, h5, h6, h7, h8]
  · intro h6 h7 h8
    simp [validateConfiguration, h1, h2, h3, h4, h5, h6, h7, h8]
  · intro h6
    simp [validateConfiguration, h1, h2, h3, h4, h5, h6]

/-- cfgNominal with the thread priority out of [0, 99] and the
hysteresis (1) above the absolute threshold (1/4), both fields inside
their own declared ranges. -/
def cfgPriorityRelation : ThresholdConfig :=
  { cfgNominal with priority := 150, thresholdValue := some (1/4), hysteresis := some 1 }

/-- Claim C3 witness: cfgPriorityOut evaluates to the invalid WARNING
priority result, while cfgPriorityRelation (same priority failure,
hysteresis above the absolute threshold) is restored to valid with the
WARNING relation result. -/
theorem claim3_witness :
    validateConfiguration cfgPriorityOut = ⟨false, .WARNING, msgPriority, suggPriority⟩
    ∧ validateConfiguration cfgPriorityRelation
        = ⟨true, .WARNING, msgRelation, suggRelation⟩ :=
  ⟨(claim3_amended cfgPriorityOut (by decide) (by decide) (by decide)
      (by norm_num [validateParameter, cfgPriorityOut, cfgNominal]) (by decide)).1
      (by norm_num [validateParameter, cfgPriorityOut, cfgNominal])
      (by norm_num [validateParameter, cfgPriorityOut, cfgNominal])
      (by norm_num [hystGtAbsThreshold, cfgPriorityOut, cfgNominal]),
    (claim3_amended cfgPriorityRelation (by decide) (by decide) (by decide)
      (by norm_num [validateParameter, cfgPriorityRelation, cfgNominal]) (by decide)).2.1
      (by norm_num [validateParameter, cfgPriorityRelation, cfgNominal])
      (by norm_num [validateParameter, cfgPriorityRelation, cfgNominal])
      (by norm_num [hystGtAbsThreshold, cfgPriorityRelation, cfgNominal, abs_of_pos])⟩

/-- Claim C4 counterexample: cfgPunct carries a hyphen (neither
alphanumeric nor underscore) in its port name and a space in its device
port name, yet validateConfiguration reports it valid: no character
class is checked. -/
theorem claim4_counterexample :
    ('-' ∈ cfgPunct.portName.data ∧ ¬ (Char.isAlphanum '-' ∨ '-' = '_'))
    ∧ (' ' ∈ cfgPunct.devicePort.data)
    ∧ (validateConfiguration cfgPunct).isValid = true := by
  refine ⟨⟨by decide, by decide⟩, by decide, ?_⟩
  norm_num [validateConfiguration, validateStringParameter, validateIntParameter,
    validateParameter, hystGtAbsThreshold, cfgPunct, cfgNominal]
  decide

/-- Claim C4 amended: the string check behind portName and devicePort
accepts exactly the strings of length 1 to 63 — emptiness and length
are checked, character classes are not — and a portName that is empty
or 64 characters or longer makes validateConfiguration return the
ERROR port-name result. -/
theorem claim4_amended :
    (∀ (s : String) (maxLength : Nat),
      validateStringParameter s maxLength false = true ↔
        1 ≤ s.length ∧ s.length < maxLength)
    ∧ (∀ cfg : ThresholdConfig, cfg.portName.length = 0 ∨ 64 ≤ cfg.portName.length →
      validateConfiguration cfg = ⟨false, .ERROR, msgPortName, suggPortName⟩) := by
  constructor
  · intro s maxLength
    simp only [validateStringParameter]
    split_ifs with ha hb <;> simp_all
    omega
  · intro cfg h
    have hfail : validateStringParameter cfg.portName 64 false = false := by
      rcases h with h | h
      · simp [validateStringParameter, h]
      · have hne : cfg.portName.length ≠ 0 := by omega
        simp [validateStringParameter, hne, h]
    simp [validateConfiguration, hfail]

/-- Claim C4 witness: a 70-character port name is rejected with the
ERROR port-name result. -/
theorem claim4_witness :
    validateConfiguration cfgLongPort = ⟨false, .ERROR, msgPortName, suggPortName⟩ :=
  claim4_amended.2 cfgLongPort (by decide)

/-- Claim C5: classifying DEVICE_COMMUNICATION_FAILURE returns
recoverable = true, logs at severity ERROR, and its only effect on the
global statistics is that the ERROR counter increments by exactly one;
the same holds for the DEVICE_COMMUNICATION spelling used internally. -/
theorem claim5_classify_device_comm (s : ErrorStats) :
    handleRuntimeError "DEVICE_COMMUNICATION_FAILURE" s
      = (true, { s with errorCount := s.errorCount + 1 })
    ∧ handleRuntimeError "DEVICE_COMMUNICATION" s
      = (true, { s with errorCount := s.errorCount + 1 }) := by
  constructor <;> rfl

/-- Claim C5 witness: starting from zeroed counters, exactly the ERROR
counter becomes 1. -/
theorem claim5_witness :
    handleRuntimeError "DEVICE_COMMUNICATION_FAILURE" ⟨0, 0, 0, 0⟩ = (true, ⟨0, 0, 1, 0⟩) :=
  (claim5_classify_device_comm ⟨0, 0, 0, 0⟩).1

/-- Claim C6: a threshold write whose value is NaN, infinite or outside
[-10, 10], and a hysteresis write whose value is NaN, infinite or
outside [0, 5], are both rejected with an error and leave the whole
controller state exactly unchanged. -/
theorem claim6_rejected_setters (st : CtrlState) (v w : Option ℚ)
    (hv : ∀ q, v = some q → q < -10 ∨ 10 < q)
    (hw : ∀ q, w = some q → q < 0 ∨ 5 < q) :
    writeFloat64 .thresholdValue v st = (.asynError, st)
    ∧ writeFloat64 .hysteresisParam w st = (.asynError, st) := by
  constructor
  · cases v with
    | none => rfl
    | some q =>
      have hcond : q < -10 ∨ q > 10 := hv q rfl
      simp [writeFloat64, validateParameter, hcond]
  · cases w with
    | none => rfl
    | some q =>
      have hcond : q < 0 ∨ q > 5 := hw q rfl
      simp [writeFloat64, validateParameter, hcond]

/-- Claim C6 witness: a NaN threshold and an out-of-range hysteresis
(6 V) are rejected and the freshly constructed state is returned
untouched. -/
theorem claim6_witness :
    writeFloat64 .thresholdValue none (initialState "dev" 0)
      = (.asynError, initialState "dev" 0)
    ∧ writeFloat64 .hysteresisParam (some 6) (initialState "dev" 0)
      = (.asynError, initialState "dev" 0) :=
  claim6_rejected_setters (initialState "dev" 0) none (some 6)
    (fun _ h => nomatch h)
    (fun q h => by injection h with h2; subst h2; norm_num)

/-- Claim C7: enabling a disabled controller is rejected with an error
whenever validateParameters fails or the device port name is empty; the
enabled flag stays false and the monitor thread is not started. -/
theorem claim7_enable_rejected (st : CtrlState) (spawnOk : Bool)
    (hen : st.enabled = false)
    (hrej : (validateParameters st).1 = false ∨ st.devicePortName = "") :
    (writeInt32 spawnOk .enableParam 1 st).1 = .asynError
    ∧ (writeInt32 spawnOk .enableParam 1 st).2.enabled = false
    ∧ (writeInt32 spawnOk .enableParam 1 st).2.threadRunning = st.threadRunning := by
  have hval : (validateParameters st).1 = false := by
    rcases hrej with h | h
    · exact h
    · exact validateParameters_empty_port st h
  have hfields := validateParameters_fields st
  refine ⟨?_, ?_, ?_⟩ <;>
    simp [writeInt32, hen, hval, hfields.1, hfields.2.1]

/-- Claim C7 witness: enabling a controller constructed with an empty
device port is rejected and starts no thread. -/
theorem claim7_witness :
    (writeInt32 true .enableParam 1 (initialState "" 0)).1 = .asynError
    ∧ (writeInt32 true .enableParam 1 (initialState "" 0)).2.enabled = false
    ∧ (writeInt32 true .enableParam 1 (initialState "" 0)).2.threadRunning
        = (initialState "" 0).threadRunning :=
  claim7_enable_rejected (initialState "" 0) true rfl (Or.inr rfl)

/-- Claim C8: in an enabled cycle whose hysteresis decision flips the
output, a failed device write leaves the in-memory outputState at the
new flipped value (it was updated before the write and is not rolled
back), sets the MAJOR alarm status 2, and raises a MAJOR alarm on the
write channel. -/
theorem claim8_write_failure_keeps_flipped_state (st : CtrlState) (rawValue : ℚ)
    (hen : st.enabled = true)
    (hch : nextOutputState st.outputState (clampValue rawValue) st.thresholdValue st.hysteresis
        ≠ st.outputState) :
    (processThresholdLogic true rawValue false st).1.outputState
      = nextOutputState st.outputState (clampValue rawValue) st.thresholdValue st.hysteresis
    ∧ (processThresholdLogic true rawValue false st).1.alarmStatus = 2
    ∧ (AlarmChannel.WRITE_ALARM, AlarmSev.MAJOR_ALARM)
        ∈ (processThresholdLogic true rawValue false st).2 := by
  refine ⟨?_, ?_, ?_⟩ <;>
    simp [processThresholdLogic, readCurrentValueFromDevice, hen, hch]

/-- Claim C8 witness: with threshold 2, hysteresis 1/2, LOW output and
sample 3, the failed write leaves the output flipped HIGH, alarm status
2, and the WRITE/MAJOR alarm raised. -/
theorem claim8_witness :
    (processThresholdLogic true 3 false stEnabled).1.outputState
      = nextOutputState stEnabled.outputState (clampValue 3) stEnabled.thresholdValue
          stEnabled.hysteresis
    ∧ (processThresholdLogic true 3 false stEnabled).1.alarmStatus = 2
    ∧ (AlarmChannel.WRITE_ALARM, AlarmSev.MAJOR_ALARM)
        ∈ (processThresholdLogic true 3 false stEnabled).2 :=
  claim8_write_failure_keeps_flipped_state stEnabled 3 rfl
    (by norm_num [nextOutputState, clampValue, stEnabled, initialState])

/-- Claim C9: every configuration with an empty portName makes
validateConfiguration return the fixed invalid ERROR port-name result,
independent of every later field — the evaluation short-circuits at the
first hard failure. -/
theorem claim9_empty_port_short_circuit (cfg : ThresholdConfig)
    (h : cfg.portName = "") :
    validateConfiguration cfg = ⟨false, .ERROR, msgPortName, suggPortName⟩ := by
  simp [validateConfiguration, validateStringParameter, h]

/-- Claim C9 witness: with an empty portName and every later field out
of range, the result is still exactly the port-name ERROR result. -/
theorem claim9_witness :
    validateConfiguration cfgEmptyPort = ⟨false, .ERROR, msgPortName, suggPortName⟩ :=
  claim9_empty_port_short_circuit cfgEmptyPort rfl

/-- Claim C10: writing any nonzero integer to the Enable parameter is
handled exactly as writing 1 — the value is coerced, not rejected. -/
theorem claim10_enable_coercion (st : CtrlState) (spawnOk : Bool) (value : Int)
    (h : value ≠ 0) :
    writeInt32 spawnOk .enableParam value st = writeInt32 spawnOk .enableParam 1 st := by
  by_cases h1 : value = 1
  · rw [h1]
  · simp [writeInt32, h, h1]

/-- Claim C10 witness: writing 5 to Enable behaves exactly like
writing 1. -/
theorem claim10_witness :
    writeInt32 true .enableParam 5 (initialState "dev" 0)
      = writeInt32 true .enableParam 1 (initialState "dev" 0) :=
  claim10_enable_coercion (initialState "dev" 0) true 5 (by decide)

end USB1608G
